import Mathlib

/-!
Verification of the ratatai repository's paginated Launchpad fetch engine
(`launchpad_api_client/src/lib.rs`) and of the TUI state/concurrency layer
(`ratatai/src/lib.rs`, `ratatai/src/app.rs`, `ratatai/src/join_monitor.rs`).

Modelling conventions:
  * External crates are modelled as explicit parameters or small semantic
    models: the HTTP client (`reqwest` / the fake client) is a pure function
    from a URL to a result, `serde_json::from_str` is a parameter returning
    either a parsed value or an error carrying its serde error category, and
    `chrono` datetime parsing is a parameter `String -> Option DateTime`
    (a datetime is modelled as an integer timestamp).
  * A Rust operation that can panic in a debug build (integer underflow,
    `Option::unwrap` on `None`, an `unimplemented` arm) is modelled as an
    `Option`-returning function where `none` is the panic.
  * The fetch loop of `get_project_bug_tasks` is modelled with explicit fuel
    (`none` = fuel exhausted, the unbounded-loop open issue of the spec);
    network calls and decoded pages are recorded in a ghost trace so that
    call-count and ordering properties can be stated.
-/

namespace Ratatai

/-- Model of a `serde_json::error::Category` (the classification returned by
`Error::classify`): a pure JSON syntax error, premature end of input, a
data/shape error, or an io error. -/
inductive Category where
  | syntaxError
  | eofError
  | dataError
  | ioError
deriving DecidableEq, Repr

/-- Model of a `serde_json::Error`: its category together with its message. -/
structure JsonError where
  category : Category
  msg : String
deriving DecidableEq, Repr

/-- Model of a `serde_json::Value`: JSON numbers are modelled as integers
(no claim under verification touches numeric payloads). -/
inductive Json where
  | null
  | bool (b : Bool)
  | num (n : Int)
  | str (s : String)
  | arr (elems : List Json)
  | obj (fields : List (String × Json))

/-- Field lookup in a parsed JSON object, first occurrence wins (serde refuses
duplicate keys while decoding a struct; duplicates are out of scope here). -/
def lookup_field : List (String × Json) → String → Option Json
  | [], _ => none
  | (k, v) :: rest, key => if k = key then some v else lookup_field rest key

/-- Model of `Value::index` with a string key (`project["self_link"]`):
a missing key, or indexing a non-object, yields `Value::Null`. -/
def Json.index (j : Json) (key : String) : Json :=
  match j with
  | .obj fields => (lookup_field fields key).getD .null
  | _ => .null

/-- Model of `Value == &str` (`PartialEq<&str> for Value`): true exactly when
the value is a JSON string equal to the given Rust string. -/
def Json.eqStr (j : Json) (s : String) : Bool :=
  match j with
  | .str t => t = s
  | _ => false

/-- `LaunchpadError` of `launchpad_api_client/src/lib.rs`: the HTTP error
payload of `reqwest::Error` is modelled as its message. -/
inductive LaunchpadError where
  | HttpRequest (msg : String)
  | Deserialization (err : JsonError)
  | InvalidProject (name : String)
deriving DecidableEq, Repr

/-- `StatusFilter` of `launchpad_api_client/src/lib.rs`. -/
inductive StatusFilter where
  | New
  | Incomplete
  | Opinion
  | Invalid
  | WontFix
  | Confirmed
  | Triaged
  | InProgress
  | Deferred
  | FixCommitted
  | FixReleased
deriving DecidableEq, Repr

/-- `impl From<StatusFilter> for String`. -/
def StatusFilter.toQueryToken : StatusFilter → String
  | .New => "New"
  | .Incomplete => "Incomplete"
  | .Opinion => "Opinion"
  | .Invalid => "Invalid"
  | .WontFix => "Won't+Fix"
  | .Confirmed => "Confirmed"
  | .Triaged => "Triaged"
  | .InProgress => "In+Progress"
  | .Deferred => "Deferred"
  | .FixCommitted => "Fix+Committed"
  | .FixReleased => "Fix+Released"

/-- A `chrono::DateTime<Utc>` is modelled as an integer timestamp; parsing an
ISO-8601 string is kept abstract (a parameter of the decoders). -/
abbrev DateTime := Int

/-- `BugTaskEntry` of `launchpad_api_client/src/lib.rs` (one record summary of
a bug-task search page), field for field. -/
structure BugTaskEntry where
  self_link : String
  web_link : String
  resource_type_link : String
  bug_link : String
  milestone_link : Option String
  status : String
  importance : String
  assignee_link : Option String
  bug_target_display_name : String
  bug_target_name : String
  bug_watch_link : Option String
  date_assigned : Option DateTime
  date_created : Option DateTime
  date_confirmed : Option DateTime
  date_incomplete : Option DateTime
  date_in_progress : Option DateTime
  date_closed : Option DateTime
  date_left_new : Option DateTime
  date_triaged : Option DateTime
  date_fix_committed : Option DateTime
  date_fix_released : Option DateTime
  date_left_closed : Option DateTime
  date_deferred : Option DateTime
  owner_link : Option String
  target_link : String
  title : String
  related_tasks_collection_link : String
  is_complete : Bool
  http_etag : String
deriving DecidableEq, Repr

/-- `LaunchpadBugTasksResponse` of `launchpad_api_client/src/lib.rs`: one page
of a paginated `searchTasks` result. -/
structure LaunchpadBugTasksResponse where
  start : Nat
  total_size : Nat
  next_collection_link : Option String
  entries : List BugTaskEntry
deriving DecidableEq, Repr

/-- `LaunchpadBug` of `launchpad_api_client/src/lib.rs` (one full record
fetched by id), field for field. -/
structure LaunchpadBug where
  self_link : String
  web_link : String
  resource_type_link : String
  id : Nat
  private_ : Bool
  information_type : String
  name : Option String
  title : String
  description : String
  owner_link : String
  bug_tasks_collection_link : String
  duplicate_of_link : Option String
  date_created : Option DateTime
  activity_collection_link : String
  can_expire : Bool
  subscriptions_collection_link : String
  date_last_updated : Option DateTime
  who_made_private_link : Option String
  date_made_private : Option DateTime
  heat : Nat
  bug_watches_collection_link : String
  cves_collection_link : String
  vulnerabilities_collection_link : String
  duplicates_collection_link : String
  attachments_collection_link : String
  security_related : Bool
  latest_patch_uploaded : Option String
  tags : List String
  date_last_message : Option DateTime
  number_of_duplicates : Nat
  message_count : Nat
  users_affected_count : Nat
  users_unaffected_count : Nat
  users_affected_collection_link : String
  users_unaffected_collection_link : String
  users_affected_count_with_dupes : Nat
  other_users_affected_count_with_dupes : Nat
  users_affected_with_dupes_collection_link : String
  messages_collection_link : String
  linked_branches_collection_link : String
  http_etag : String
deriving DecidableEq, Repr

/-- `deserialize_optional_datetime` of `launchpad_api_client/src/lib.rs`
applied to a present field value. `Option::<String>::deserialize` maps JSON
null to `None` and a JSON string to `Some`; every other JSON type is a serde
data error. The repository's closure then maps the empty string to `None` and
otherwise keeps `s.parse::<DateTime<Utc>>().ok()` (a parse failure is
swallowed into `None`, never an error). `parse` models the chrono parser. -/
def deserialize_optional_datetime (parse : String → Option DateTime) (v : Json) :
    Except JsonError (Option DateTime) :=
  match v with
  | .null => .ok none
  | .str s => if s = "" then .ok none else .ok (parse s)
  | _ => .error ⟨.dataError, "invalid type for Option<String>"⟩

/-- Decoding of one `#[serde(default, deserialize_with =
"deserialize_optional_datetime")]` struct field from the surrounding JSON
object: an absent key takes the serde `default` (`None`) and a present value
goes through `deserialize_optional_datetime`. -/
def decode_optional_datetime_field (parse : String → Option DateTime)
    (fields : List (String × Json)) (key : String) :
    Except JsonError (Option DateTime) :=
  match lookup_field fields key with
  | none => .ok none
  | some v => deserialize_optional_datetime parse v

/-- `check_project` of `launchpad_api_client/src/lib.rs`. `parseValue` models
`serde_json::from_str::<Value>`; a parse error classified `Category::Syntax`
collapses to `InvalidProject(project_name)`, any other parse error is
propagated as `Deserialization`, and a parsed value whose `self_link` entry
does not equal the requested URL is also `InvalidProject(project_name)`. -/
def check_project (parseValue : String → Except JsonError Json)
    (project_name url response : String) : Except LaunchpadError Json :=
  match parseValue response with
  | .error e =>
    match e.category with
    | .syntaxError => .error (.InvalidProject project_name)
    | _ => .error (.Deserialization e)
  | .ok project =>
    if (project.index "self_link").eqStr url then .ok project
    else .error (.InvalidProject project_name)

/-- The transport capability (`HTTPClient::get` of either `ReqwestClient` or
the fake client), modelled as a pure map from a URL to the response text or a
`LaunchpadError`. -/
abbrev HttpClient := String → Except LaunchpadError String

/-- Model of `serde_json::from_str::<Value>` (a parameter: serde is an
external collaborator). -/
abbrev ParseValue := String → Except JsonError Json

/-- Model of `serde_json::from_str::<LaunchpadBugTasksResponse>` (a
parameter: serde is an external collaborator). -/
abbrev ParsePage := String → Except JsonError LaunchpadBugTasksResponse

/-- `LAUNCHPAD_API_BASE_URL` of `launchpad_api_client/src/lib.rs`. -/
def LAUNCHPAD_API_BASE_URL : String := "https://api.launchpad.net/1.0"

/-- `LAUNCHPAD_API_BUG_BASE_URL` of `launchpad_api_client/src/lib.rs`. -/
def LAUNCHPAD_API_BUG_BASE_URL : String := "https://api.launchpad.net/1.0/bugs"

/-- The project-resource URL built by `get_project_bug_tasks`. -/
def project_url (project_name : String) : String :=
  LAUNCHPAD_API_BASE_URL ++ "/" ++ project_name

/-- The first-page search URL built by `get_project_bug_tasks` once the
project has been validated. -/
def search_tasks_url (project_name : String) (filter : Option StatusFilter) : String :=
  match filter with
  | none => LAUNCHPAD_API_BASE_URL ++ "/" ++ project_name ++ "?ws.op=searchTasks"
  | some f =>
      LAUNCHPAD_API_BASE_URL ++ "/" ++ project_name ++ "?ws.op=searchTasks&status=" ++
        f.toQueryToken

/-- `get_bug_tasks_page` of `launchpad_api_client/src/lib.rs`: one transport
round trip followed by one page decode; a decode failure surfaces through the
`?`-conversion as `LaunchpadError::Deserialization`. -/
def get_bug_tasks_page (client : HttpClient) (parsePage : ParsePage) (url : String) :
    Except LaunchpadError LaunchpadBugTasksResponse :=
  match client url with
  | .error e => .error e
  | .ok text =>
    match parsePage text with
    | .error e => .error (.Deserialization e)
    | .ok page => .ok page

/-- `copy_bug_tasks_page` of `launchpad_api_client/src/lib.rs`: push every
entry of the page, in iteration order, onto the accumulator. -/
def copy_bug_tasks_page (page : LaunchpadBugTasksResponse)
    (bugtasks : List BugTaskEntry) : List BugTaskEntry :=
  bugtasks ++ page.entries

/-- The observable outcome of a run of `get_project_bug_tasks`: the returned
result together with a ghost trace of every URL passed to `HTTPClient::get`
(in call order) and of every search page successfully decoded (in arrival
order). The traces are instrumentation only; the `result` component is the
function's Rust return value. -/
structure FetchOutcome where
  result : Except LaunchpadError (List BugTaskEntry)
  urls : List String
  pages : List LaunchpadBugTasksResponse
deriving Repr

/-- The `while bug_tasks_page.next_collection_link.is_some()` loop of
`get_project_bug_tasks`, with explicit fuel: `none` models a run whose cursor
chain outlives the fuel (the unbounded-loop open issue); the loop itself
terminates exactly when the current page carries no `next_collection_link`.
The returned traces cover only the calls made by the loop. -/
def bug_tasks_loop (client : HttpClient) (parsePage : ParsePage) :
    Nat → LaunchpadBugTasksResponse → List BugTaskEntry → Option FetchOutcome
  | fuel, page, bugtasks =>
    match page.next_collection_link with
    | none => some ⟨.ok bugtasks, [], []⟩
    | some url =>
      match fuel with
      | 0 => none
      | Nat.succ f =>
        match get_bug_tasks_page client parsePage url with
        | .error e => some ⟨.error e, [url], []⟩
        | .ok page2 =>
          (bug_tasks_loop client parsePage f page2 (copy_bug_tasks_page page2 bugtasks)).map
            (fun o => ⟨o.result, url :: o.urls, page2 :: o.pages⟩)

/-- `get_project_bug_tasks` of `launchpad_api_client/src/lib.rs`: fetch and
validate the project resource, then fetch the first search page and follow
`next_collection_link` cursors until a page carries none, concatenating each
page's entries in arrival order (`Vec::with_capacity(total_size)` has no
semantic effect and is dropped). Instrumented with the ghost traces of
`FetchOutcome`; `none` models fuel exhaustion of the cursor loop. -/
def get_project_bug_tasks (client : HttpClient) (parseValue : ParseValue)
    (parsePage : ParsePage) (fuel : Nat) (project_name : String)
    (filter : Option StatusFilter) : Option FetchOutcome :=
  let url := project_url project_name
  match client url with
  | .error e => some ⟨.error e, [url], []⟩
  | .ok response =>
    match check_project parseValue project_name url response with
    | .error e => some ⟨.error e, [url], []⟩
    | .ok _ =>
      let surl := search_tasks_url project_name filter
      match get_bug_tasks_page client parsePage surl with
      | .error e => some ⟨.error e, [url, surl], []⟩
      | .ok page =>
        (bug_tasks_loop client parsePage fuel page (copy_bug_tasks_page page [])).map
          (fun o => ⟨o.result, url :: surl :: o.urls, page :: o.pages⟩)

/-- A nonempty page sequence is a terminated cursor chain: every page but the
last carries a continuation cursor and the last carries none (the loop's exit
condition). The empty sequence is not a run of the fetcher. -/
def pages_terminated : List LaunchpadBugTasksResponse → Bool
  | [] => false
  | [p] => p.next_collection_link.isNone
  | p :: q :: ps => p.next_collection_link.isSome && pages_terminated (q :: ps)

/-- `Screen` of `ratatai/src/app.rs`. -/
inductive Screen where
  | BugList
  | BugEditing
deriving DecidableEq, Repr

/-- `ActivePanel` of `ratatai/src/app.rs`. -/
inductive ActivePanel where
  | Left
  | Right
deriving DecidableEq, Repr

/-- One table row built by `App::update_bugs`: three cells (id, creation
date, title), height 1, bottom margin 1 (`ratatui::widgets::Row` is modelled
by its construction arguments). -/
structure Row where
  cells : List String
  height : Nat
  bottom_margin : Nat
deriving DecidableEq, Repr

/-- Model of `ratatui::widgets::ScrollbarState`: `ScrollbarState::new(n)`
yields content length `n` at position 0, and `.position(i)` moves the
position. -/
structure ScrollbarState where
  content_length : Nat
  position : Nat
deriving DecidableEq, Repr

/-- `LpMessage` of `ratatai/src/lib.rs`: the tagged result a background fetch
task posts on the channel. -/
inductive LpMessage where
  | Bugs (bugs : List BugTaskEntry)
  | Bug (bug : LaunchpadBug)
  | Error (e : LaunchpadError)
deriving DecidableEq, Repr

/-- The UI-owned state of `App` (`ratatai/src/app.rs`), restricted to the
fields the verified operations read or write. `bug_table_state` is modelled
by its selection, `bug_table_scrollbar_state` by `ScrollbarState`, and the
`Mutex<String>` response buffer by its contents; the client handles, the
spawner side of the channel and the spinner animation state are runtime
handles outside the model. -/
structure App where
  bug_table_items : List BugTaskEntry
  bug_table_rows : List Row
  bug_table_selected : Option Nat
  bug_table_scrollbar_state : ScrollbarState
  active_panel : ActivePanel
  current_screen : Screen
  bug_desc_scroll : Nat
  bug_desc_scroll_to_end : Bool
  current_bug : Option LaunchpadBug
  spinner_enabled : Bool
  spinner_label_index : Nat
  gemini_response : String
deriving DecidableEq, Repr

/-- The state `App::new` builds: empty table, no selection, scrollbar over 0
rows, left panel of the bug-list screen, no spinner. -/
def App.new : App where
  bug_table_items := []
  bug_table_rows := []
  bug_table_selected := none
  bug_table_scrollbar_state := ⟨0, 0⟩
  active_panel := .Left
  current_screen := .BugList
  bug_desc_scroll := 0
  bug_desc_scroll_to_end := false
  current_bug := none
  spinner_enabled := false
  spinner_label_index := 0
  gemini_response := "Loading response from Gemini..."

/-- usize subtraction as a debug build executes it: `none` models the
underflow panic. -/
def usize_sub (a b : Nat) : Option Nat :=
  if b ≤ a then some (a - b) else none

/-- The shared tail of every table-navigation method: select row `i` and move
the scrollbar position to `i`. -/
def App.select_row (app : App) (i : Nat) : App :=
  { app with
    bug_table_selected := some i
    bug_table_scrollbar_state := { app.bug_table_scrollbar_state with position := i } }

/-- `App::bug_table_previous_item` of `ratatai/src/app.rs`: from selection 0
wrap to `len() - 1` (an underflow panic on an empty table), from a positive
selection step back one, from no selection go to row 0. -/
def App.bug_table_previous_item (app : App) : Option App :=
  let idx : Option Nat :=
    match app.bug_table_selected with
    | some i => if i = 0 then usize_sub app.bug_table_items.length 1 else some (i - 1)
    | none => some 0
  match idx with
  | none => none
  | some i => some (app.select_row i)

/-- `App::bug_table_next_item` of `ratatai/src/app.rs`: with a selection,
compare against `len() - 1` (an underflow panic on an empty table) and wrap
to 0 from the last row; with no selection go to row 0. -/
def App.bug_table_next_item (app : App) : Option App :=
  let idx : Option Nat :=
    match app.bug_table_selected with
    | some i =>
      match usize_sub app.bug_table_items.length 1 with
      | none => none
      | some last => some (if last ≤ i then 0 else i + 1)
    | none => some 0
  match idx with
  | none => none
  | some i => some (app.select_row i)

/-- `App::bug_table_go_to_end` of `ratatai/src/app.rs`: select `len() - 1`
(an underflow panic on an empty table). -/
def App.bug_table_go_to_end (app : App) : Option App :=
  match usize_sub app.bug_table_items.length 1 with
  | none => none
  | some i => some (app.select_row i)

/-- The row-building closure of `App::update_bugs` applied to one entry whose
`date_created` is present: regex capture groups 1 and 2 of the title (or two
empty strings when the regex does not match) plus the formatted creation
date. `re` models `Regex::captures`, `dateNaive` models
`DateTime::date_naive().to_string()`. -/
def build_row (re : String → Option (String × String)) (dateNaive : DateTime → String)
    (item : BugTaskEntry) (d : DateTime) : Row :=
  let extracted := (re item.title).getD ("", "")
  { cells := [extracted.1, dateNaive d, extracted.2], height := 1, bottom_margin := 1 }

/-- The `.iter().map(...).collect()` row construction of `App::update_bugs`,
entry by entry in list order: `none` models the
`item.date_created.unwrap()` panic on the first entry without a creation
date. -/
def build_rows (re : String → Option (String × String)) (dateNaive : DateTime → String) :
    List BugTaskEntry → Option (List Row)
  | [] => some []
  | item :: rest =>
    match item.date_created with
    | none => none
    | some d =>
      match build_rows re dateNaive rest with
      | none => none
      | some rows => some (build_row re dateNaive item d :: rows)

/-- `App::update_bugs` of `ratatai/src/app.rs`: install the received record
list, rebuild the rows (panicking on a missing `date_created`), select row 0,
reset the scrollbar over the new length and stop the spinner. -/
def App.update_bugs (re : String → Option (String × String))
    (dateNaive : DateTime → String) (app : App) (bugs : List BugTaskEntry) :
    Option App :=
  match build_rows re dateNaive bugs with
  | none => none
  | some rows =>
    some { app with
      bug_table_items := bugs
      bug_table_rows := rows
      bug_table_selected := some 0
      bug_table_scrollbar_state := ⟨bugs.length, 0⟩
      spinner_enabled := false }

/-- The receiving end of the bounded `mpsc::channel::<LpMessage>(5)` as one
`try_recv` observes it: the queued messages in FIFO order, and whether every
sender has been dropped. -/
structure LpReceiver where
  queue : List LpMessage
  disconnected : Bool
deriving DecidableEq, Repr

/-- `TryRecvError` of `tokio::sync::mpsc::error`. -/
inductive TryRecvError where
  | Empty
  | Disconnected
deriving DecidableEq, Repr

/-- Model of `Receiver::try_recv`: pop the head message without blocking, or
report an empty or disconnected channel. -/
def try_recv (r : LpReceiver) : Except TryRecvError (LpMessage × LpReceiver) :=
  match r.queue with
  | msg :: rest => .ok (msg, { r with queue := rest })
  | [] => if r.disconnected then .error .Disconnected else .error .Empty

/-- The `LpMessage::Bugs` arm of the event loop's `try_recv` match
(`ratatai/src/lib.rs`, `run`): install the record list, stop the spinner,
select row 0 and reset the scrollbar. -/
def apply_bugs_message (app : App) (bugs : List BugTaskEntry) : App :=
  { app with
    bug_table_items := bugs
    spinner_enabled := false
    bug_table_selected := some 0
    bug_table_scrollbar_state := ⟨bugs.length, 0⟩ }

/-- The per-tick channel drain of the event loop (`ratatai/src/lib.rs`,
`run`): one non-blocking `try_recv`; `Empty` and `Disconnected` leave the
state untouched, a `Bugs` message is applied inline, and every other message
variant hits the `_ => unimplemented!()` arm — a panic that aborts the loop,
modelled as `none`. -/
def drain_lp_message (app : App) (r : LpReceiver) : Option (App × LpReceiver) :=
  match try_recv r with
  | .error .Empty => some (app, r)
  | .error .Disconnected => some (app, r)
  | .ok (msg, r2) =>
    match msg with
    | .Bugs bugs => some (apply_bugs_message app bugs, r2)
    | _ => none

/-- `Ord for Option<T>` as Rust defines it, at `≤`: `None` sorts before any
`Some`. Used by the `sort_by` comparator of `App::get_bugs`. -/
def option_date_le : Option DateTime → Option DateTime → Bool
  | none, _ => true
  | some _, none => false
  | some x, some y => x ≤ y

/-- The `bug_tasks.sort_by(|a, b| b.date_created.cmp(&a.date_created))` step
of `App::get_bugs`: a stable sort, newest creation date first. -/
def sort_bug_tasks (tasks : List BugTaskEntry) : List BugTaskEntry :=
  tasks.mergeSort (fun a b => option_date_le b.date_created a.date_created)

/-- The sending side of the bounded `mpsc::channel::<LpMessage>(5)`:
`send(msg).await` enqueues when the receiver is alive and fails when the
receiver has been dropped (capacity back-pressure suspends the sender but
never fails the send, so capacity does not appear in the model). -/
structure LpChannel where
  receiver_alive : Bool
  queue : List LpMessage
deriving DecidableEq, Repr

/-- `Sender::send(msg).await`: the updated channel and whether the send
succeeded. -/
def channel_send (ch : LpChannel) (msg : LpMessage) : LpChannel × Bool :=
  if ch.receiver_alive then ({ ch with queue := ch.queue ++ [msg] }, true)
  else (ch, false)

/-- What one run of a spawned task body leaves behind: the channel after the
task, every send attempt the task made (in order) and every error it logged.
The task body is a total function — failure never unwinds out of it. -/
structure TaskRun where
  channel : LpChannel
  attempts : List LpMessage
  logs : List String
deriving DecidableEq, Repr

/-- The body of the task `App::get_bugs` spawns (`ratatai/src/app.rs`), after
its `get_project_bug_tasks(..).await` has produced `fetched`: on success sort
the record list and send it as `LpMessage::Bugs`, on failure send the error
as `LpMessage::Error`; a failed send is only logged. -/
def get_bugs_task (fetched : Except LaunchpadError (List BugTaskEntry))
    (ch : LpChannel) : TaskRun :=
  match fetched with
  | .ok bug_tasks =>
    let msg := LpMessage.Bugs (sort_bug_tasks bug_tasks)
    let sent := channel_send ch msg
    ⟨sent.1, [msg], if sent.2 then [] else ["Fail to send message"]⟩
  | .error e =>
    let sent := channel_send ch (.Error e)
    ⟨sent.1, [.Error e], if sent.2 then [] else ["Fail to send message"]⟩

/-- The body of the task `App::get_bug` spawns (`ratatai/src/app.rs`), after
its `lp_get_bug(..).await` has produced `fetched`: on success send the record
as `LpMessage::Bug`, on failure send the error as `LpMessage::Error`; a
failed send is only logged. -/
def get_bug_task (fetched : Except LaunchpadError LaunchpadBug)
    (ch : LpChannel) : TaskRun :=
  match fetched with
  | .ok bug =>
    let sent := channel_send ch (.Bug bug)
    ⟨sent.1, [.Bug bug], if sent.2 then [] else ["Fail to send message"]⟩
  | .error e =>
    let sent := channel_send ch (.Error e)
    ⟨sent.1, [.Error e], if sent.2 then [] else ["Fail to send message"]⟩

/-- `tokio::task::JoinError`, by its two causes. -/
inductive JoinError where
  | cancelled
  | panicked (msg : String)
deriving DecidableEq, Repr

/-- `Future::poll` readiness of a spawned task's `JoinHandle`. -/
inductive TaskPoll (α : Type) where
  | Ready (value : α)
  | Pending
deriving DecidableEq, Repr

/-- Model of a `JoinHandle<()>` wrapped by `JoinHandleMonitor`: the task
completes at tick `finish_at` with `outcome`, so a poll is `Pending` strictly
before `finish_at` and `Ready outcome` from `finish_at` on (tokio's
`JoinHandle` contract; `now` is the tick at which the monitor polls). -/
structure JoinHandleModel where
  finish_at : Nat
  outcome : Except JoinError Unit
deriving Repr

/-- One poll of the wrapped handle, driven by the monitor's no-op waker. -/
def join_handle_poll (h : JoinHandleModel) (now : Nat) :
    TaskPoll (Except JoinError Unit) :=
  if h.finish_at ≤ now then .Ready h.outcome else .Pending

/-- `JoinHandleMonitor::is_finished` of `ratatai/src/join_monitor.rs`: one
non-suspending poll, `Poll::Ready(res)` mapped to `Some(res)` and
`Poll::Pending` to `None`. -/
def is_finished (h : JoinHandleModel) (now : Nat) : Option (Except JoinError Unit) :=
  match join_handle_poll h now with
  | .Ready res => some res
  | .Pending => none

/-- `check_monitor` of `ratatai/src/join_monitor.rs`: true exactly when
`is_finished` yields an outcome (the outcome itself is only logged). -/
def check_monitor (h : JoinHandleModel) (now : Nat) : Bool :=
  (is_finished h now).isSome

/-! ### Concrete inputs used by witnesses and counterexamples -/

/-- A concrete `BugTaskEntry` (the shape the fake client's fixtures take). -/
def sample_entry (n : Nat) : BugTaskEntry where
  self_link := "task-" ++ toString n
  web_link := ""
  resource_type_link := ""
  bug_link := "bug-" ++ toString n
  milestone_link := none
  status := "New"
  importance := "Undecided"
  assignee_link := none
  bug_target_display_name := "nova"
  bug_target_name := "nova"
  bug_watch_link := none
  date_assigned := none
  date_created := some (Int.ofNat n)
  date_confirmed := none
  date_incomplete := none
  date_in_progress := none
  date_closed := none
  date_left_new := none
  date_triaged := none
  date_fix_committed := none
  date_fix_released := none
  date_left_closed := none
  date_deferred := none
  owner_link := none
  target_link := ""
  title := "Bug " ++ toString n
  related_tasks_collection_link := ""
  is_complete := false
  http_etag := ""

/-- First page of the two-page demo response (cursor present). -/
def demo_page_1 : LaunchpadBugTasksResponse :=
  ⟨0, 4, some "page-2-url", [sample_entry 1, sample_entry 2]⟩

/-- Second page of the two-page demo response (terminal). -/
def demo_page_2 : LaunchpadBugTasksResponse :=
  ⟨2, 4, none, [sample_entry 3, sample_entry 4]⟩

/-- Demo transport: a valid `nova` project and a two-page search result. -/
def demo_client : HttpClient := fun url =>
  if url = project_url "nova" then .ok "project-nova"
  else if url = search_tasks_url "nova" none then .ok "page-1"
  else if url = "page-2-url" then .ok "page-2"
  else .error (.HttpRequest "unknown url")

/-- Demo `serde_json::from_str::<Value>`: the project payload parses to an
object whose `self_link` is the requested URL. -/
def demo_parse_value : ParseValue := fun s =>
  if s = "project-nova" then .ok (Json.obj [("self_link", Json.str (project_url "nova"))])
  else .error ⟨.syntaxError, "expected value"⟩

/-- Demo page decoder for the two-page response. -/
def demo_parse_page : ParsePage := fun s =>
  if s = "page-1" then .ok demo_page_1
  else if s = "page-2" then .ok demo_page_2
  else .error ⟨.dataError, "missing field"⟩

/-- The single (terminal) page of the one-page demo response. -/
def demo_single_page : LaunchpadBugTasksResponse := ⟨0, 1, none, [sample_entry 7]⟩

/-- Demo transport whose search result fits in one page. -/
def demo_client_one : HttpClient := fun url =>
  if url = project_url "nova" then .ok "project-nova"
  else if url = search_tasks_url "nova" none then .ok "page-only"
  else .error (.HttpRequest "unknown url")

/-- Demo page decoder for the one-page response. -/
def demo_parse_page_one : ParsePage := fun s =>
  if s = "page-only" then .ok demo_single_page
  else .error ⟨.dataError, "missing field"⟩

/-- Demo transport for an invalid project: `zorglub` answers with a payload
that parses to an empty object (the fake client's `"{}"` fixture). -/
def demo_client_zorglub : HttpClient := fun url =>
  if url = project_url "zorglub" then .ok "empty-object"
  else .error (.HttpRequest "unknown url")

/-- Demo `serde_json::from_str::<Value>` for the invalid-project payload. -/
def demo_parse_value_zorglub : ParseValue := fun s =>
  if s = "empty-object" then .ok (Json.obj [])
  else .error ⟨.syntaxError, "expected value"⟩

/-- An `App` whose table is empty while row 1 is selected. -/
def empty_app_sel_one : App := { App.new with bug_table_selected := some 1 }

/-- An `App` whose table is empty while row 0 is selected. -/
def empty_app_sel_zero : App := { App.new with bug_table_selected := some 0 }

/-! ## Theorems -/

/-- Loop invariant of the cursor-following loop: a successful run returns the
accumulator extended by the concatenation, in arrival order, of the entries
of every page the loop fetched, and the page sequence headed by the loop's
starting page is a terminated cursor chain. -/
theorem bug_tasks_loop_ok (client : HttpClient) (parsePage : ParsePage) :
    ∀ (fuel : Nat) (page : LaunchpadBugTasksResponse) (acc : List BugTaskEntry)
      (o : FetchOutcome) (res : List BugTaskEntry),
      bug_tasks_loop client parsePage fuel page acc = some o →
      o.result = .ok res →
      res = acc ++ (o.pages.map LaunchpadBugTasksResponse.entries).flatten ∧
        pages_terminated (page :: o.pages) = true := by
  intro fuel
  induction fuel with
  | zero =>
    intro page acc o res h hres
    rw [bug_tasks_loop] at h
    cases hnext : page.next_collection_link with
    | none =>
      simp only [hnext] at h
      obtain rfl := Option.some.inj h
      obtain rfl := Except.ok.inj hres
      simp [pages_terminated, hnext]
    | some url => simp only [hnext] at h; cases h
  | succ f ih =>
    intro page acc o res h hres
    rw [bug_tasks_loop] at h
    cases hnext : page.next_collection_link with
    | none =>
      simp only [hnext] at h
      obtain rfl := Option.some.inj h
      obtain rfl := Except.ok.inj hres
      simp [pages_terminated, hnext]
    | some url =>
      simp only [hnext] at h
      cases hpg : get_bug_tasks_page client parsePage url with
      | error e =>
        simp only [hpg] at h
        obtain rfl := Option.some.inj h
        cases hres
      | ok page2 =>
        simp only [hpg] at h
        cases hrec : bug_tasks_loop client parsePage f page2 (copy_bug_tasks_page page2 acc) with
        | none => rw [hrec] at h; cases h
        | some o2 =>
          rw [hrec] at h
          obtain rfl := Option.some.inj h
          have step := ih page2 (copy_bug_tasks_page page2 acc) o2 res hrec hres
          refine ⟨?_, ?_⟩
          · rw [step.1]
            simp [copy_bug_tasks_page, List.append_assoc]
          · have hterm := step.2
            simp [pages_terminated, hnext, hterm]

/-- C1: on every successful run of `get_project_bug_tasks`, the returned
sequence is the concatenation of the entries of every fetched page in
page-arrival order with intra-page order preserved (no re-sorting, no
deduplication), and the pages form a chain in which every page but the last
carries a continuation cursor and the last carries none: the loop terminates
exactly when a page's `next_collection_link` is `None`. -/
theorem get_project_bug_tasks_concatenates (client : HttpClient)
    (parseValue : ParseValue) (parsePage : ParsePage) (fuel : Nat)
    (project_name : String) (filter : Option StatusFilter) (o : FetchOutcome)
    (res : List BugTaskEntry)
    (h : get_project_bug_tasks client parseValue parsePage fuel project_name filter = some o)
    (hres : o.result = .ok res) :
    res = (o.pages.map LaunchpadBugTasksResponse.entries).flatten ∧
      pages_terminated o.pages = true := by
  rw [get_project_bug_tasks] at h
  cases hc : client (project_url project_name) with
  | error e =>
    simp only [hc] at h
    obtain rfl := Option.some.inj h
    cases hres
  | ok response =>
    simp only [hc] at h
    cases hchk : check_project parseValue project_name (project_url project_name) response with
    | error e =>
      simp only [hchk] at h
      obtain rfl := Option.some.inj h
      cases hres
    | ok project =>
      simp only [hchk] at h
      cases hpg : get_bug_tasks_page client parsePage
          (search_tasks_url project_name filter) with
      | error e =>
        simp only [hpg] at h
        obtain rfl := Option.some.inj h
        cases hres
      | ok page =>
        simp only [hpg] at h
        cases hrec : bug_tasks_loop client parsePage fuel page
            (copy_bug_tasks_page page []) with
        | none => rw [hrec] at h; cases h
        | some o2 =>
          rw [hrec] at h
          obtain rfl := Option.some.inj h
          have step := bug_tasks_loop_ok client parsePage fuel page
            (copy_bug_tasks_page page []) o2 res hrec hres
          refine ⟨?_, step.2⟩
          rw [step.1]
          simp [copy_bug_tasks_page]

/-- Witness for C1: the two-page demo run returns the four entries in page
order, and its page trace is a terminated cursor chain. -/
theorem get_project_bug_tasks_concatenates_witness :
    [sample_entry 1, sample_entry 2, sample_entry 3, sample_entry 4] =
      ([demo_page_1, demo_page_2].map LaunchpadBugTasksResponse.entries).flatten ∧
      pages_terminated [demo_page_1, demo_page_2] = true :=
  get_project_bug_tasks_concatenates demo_client demo_parse_value demo_parse_page 5
    "nova" none
    ⟨.ok [sample_entry 1, sample_entry 2, sample_entry 3, sample_entry 4],
     [project_url "nova", search_tasks_url "nova" none, "page-2-url"],
     [demo_page_1, demo_page_2]⟩
    [sample_entry 1, sample_entry 2, sample_entry 3, sample_entry 4]
    (by rfl) rfl

/-- C2: `check_project` answers `InvalidProject(project_name)` exactly when
the payload fails to parse with a syntax-level error or parses to a value
whose `self_link` does not equal the requested URL, and every parse error of
any other category is propagated as the distinct generic `Deserialization`
error. -/
theorem check_project_classifies (parseValue : ParseValue)
    (project_name url response : String) :
    (check_project parseValue project_name url response =
        .error (.InvalidProject project_name) ↔
      (∃ e, parseValue response = .error e ∧ e.category = .syntaxError) ∨
      (∃ j, parseValue response = .ok j ∧ (j.index "self_link").eqStr url = false)) ∧
    (∀ e, parseValue response = .error e → e.category ≠ .syntaxError →
      check_project parseValue project_name url response =
        .error (.Deserialization e)) := by
  constructor
  · constructor
    · intro h
      cases hp : parseValue response with
      | error e =>
        cases hcat : e.category with
        | syntaxError => exact Or.inl ⟨e, rfl, hcat⟩
        | eofError => simp [check_project, hp, hcat] at h
        | dataError => simp [check_project, hp, hcat] at h
        | ioError => simp [check_project, hp, hcat] at h
      | ok j =>
        refine Or.inr ⟨j, rfl, ?_⟩
        by_contra hne
        have heq : (j.index "self_link").eqStr url = true := by
          cases hv : (j.index "self_link").eqStr url
          · exact absurd hv hne
          · rfl
        simp [check_project, hp, heq] at h
    · rintro (⟨e, hp, hcat⟩ | ⟨j, hp, hne⟩)
      · simp [check_project, hp, hcat]
      · simp [check_project, hp, hne]
  · intro e hp hcat
    cases hcat2 : e.category with
    | syntaxError => exact absurd hcat2 hcat
    | eofError => simp [check_project, hp, hcat2]
    | dataError => simp [check_project, hp, hcat2]
    | ioError => simp [check_project, hp, hcat2]

/-- C3 (evaluation at the failing input): a tick whose channel head is an
`Error` message — e.g. the primary record-list fetch failed — hits the event
loop's `_ => unimplemented!()` arm and panics, aborting the application
instead of rendering the failure. -/
theorem drain_lp_message_error_panics :
    drain_lp_message App.new ⟨[.Error (.InvalidProject "nova")], false⟩ = none := rfl

/-- C4: each spawned fetch-task body attempts exactly one tagged send — the
success variant of its operation on success, `Error` on failure — never
unwinding (the bodies are total functions into `TaskRun`); the channel gains
exactly that message when the receiver is alive, and a failed send only
leaves a log entry, the channel untouched. -/
theorem background_tasks_send_exactly_one
    (fetched_list : Except LaunchpadError (List BugTaskEntry))
    (fetched_bug : Except LaunchpadError LaunchpadBug) (ch : LpChannel) :
    ((get_bugs_task fetched_list ch).attempts =
        [match fetched_list with
         | .ok ts => LpMessage.Bugs (sort_bug_tasks ts)
         | .error e => LpMessage.Error e] ∧
      (get_bugs_task fetched_list ch).channel.queue =
        (if ch.receiver_alive then
          ch.queue ++ (get_bugs_task fetched_list ch).attempts
        else ch.queue) ∧
      (get_bugs_task fetched_list ch).channel.receiver_alive = ch.receiver_alive ∧
      ((get_bugs_task fetched_list ch).logs = [] ↔ ch.receiver_alive = true)) ∧
    ((get_bug_task fetched_bug ch).attempts =
        [match fetched_bug with
         | .ok b => LpMessage.Bug b
         | .error e => LpMessage.Error e] ∧
      (get_bug_task fetched_bug ch).channel.queue =
        (if ch.receiver_alive then
          ch.queue ++ (get_bug_task fetched_bug ch).attempts
        else ch.queue) ∧
      (get_bug_task fetched_bug ch).channel.receiver_alive = ch.receiver_alive ∧
      ((get_bug_task fetched_bug ch).logs = [] ↔ ch.receiver_alive = true)) := by
  obtain ⟨alive, queue⟩ := ch
  cases fetched_list <;> cases fetched_bug <;> cases alive <;>
    simp [get_bugs_task, get_bug_task, channel_send]

/-- C5: when validation of the project resource fails, `get_project_bug_tasks`
stops with that error having issued exactly one network request — the project
URL; the `searchTasks` URL is never fetched. -/
theorem get_project_bug_tasks_fail_fast (client : HttpClient)
    (parseValue : ParseValue) (parsePage : ParsePage) (fuel : Nat)
    (project_name : String) (filter : Option StatusFilter) (response : String)
    (e : LaunchpadError)
    (hresp : client (project_url project_name) = .ok response)
    (hchk : check_project parseValue project_name (project_url project_name) response =
      .error e) :
    get_project_bug_tasks client parseValue parsePage fuel project_name filter =
      some ⟨.error e, [project_url project_name], []⟩ := by
  rw [get_project_bug_tasks]
  simp only [hresp, hchk]

/-- Witness for C5: the `zorglub` project payload parses to an empty object,
validation fails with `InvalidProject("zorglub")`, and the run's whole
network trace is the single project-URL request. -/
theorem get_project_bug_tasks_fail_fast_witness :
    get_project_bug_tasks demo_client_zorglub demo_parse_value_zorglub demo_parse_page 3
        "zorglub" none =
      some ⟨.error (.InvalidProject "zorglub"), [project_url "zorglub"], []⟩ :=
  get_project_bug_tasks_fail_fast demo_client_zorglub demo_parse_value_zorglub
    demo_parse_page 3 "zorglub" none "empty-object" (.InvalidProject "zorglub") rfl rfl

/-- A page without a continuation cursor makes the loop return at once: no
further network call, no further page. -/
theorem bug_tasks_loop_terminal (client : HttpClient) (parsePage : ParsePage)
    (fuel : Nat) (page : LaunchpadBugTasksResponse) (acc : List BugTaskEntry)
    (h : page.next_collection_link = none) :
    bug_tasks_loop client parsePage fuel page acc = some ⟨.ok acc, [], []⟩ := by
  rw [bug_tasks_loop]
  simp [h]

/-- Counterexample to C6 as stated: on a run whose first (and only) page
carries no `next_collection_link`, `get_project_bug_tasks` performs two
network calls (project validation plus one page fetch), not one. -/
theorem single_page_run_makes_two_calls_not_one :
    (get_project_bug_tasks demo_client_one demo_parse_value demo_parse_page_one 3
        "nova" none).map (fun o => o.urls.length) = some 2 ∧
      demo_single_page.next_collection_link = none ∧ (2 : Nat) ≠ 1 :=
  ⟨rfl, rfl, by decide⟩

/-- C6 amended: on every run whose first page carries no cursor, exactly two
network calls occur — the project-validation request and a single
`searchTasks` page request — and no further page is fetched. -/
theorem get_project_bug_tasks_single_page_calls (client : HttpClient)
    (parseValue : ParseValue) (parsePage : ParsePage) (fuel : Nat)
    (project_name : String) (filter : Option StatusFilter) (o : FetchOutcome)
    (p : LaunchpadBugTasksResponse) (ps : List LaunchpadBugTasksResponse)
    (h : get_project_bug_tasks client parseValue parsePage fuel project_name filter = some o)
    (hpages : o.pages = p :: ps)
    (hnone : p.next_collection_link = none) :
    o.urls.length = 2 ∧ ps = [] := by
  rw [get_project_bug_tasks] at h
  cases hc : client (project_url project_name) with
  | error e =>
    simp only [hc] at h
    obtain rfl := Option.some.inj h
    cases hpages
  | ok response =>
    simp only [hc] at h
    cases hchk : check_project parseValue project_name (project_url project_name) response with
    | error e =>
      simp only [hchk] at h
      obtain rfl := Option.some.inj h
      cases hpages
    | ok project =>
      simp only [hchk] at h
      cases hpg : get_bug_tasks_page client parsePage
          (search_tasks_url project_name filter) with
      | error e =>
        simp only [hpg] at h
        obtain rfl := Option.some.inj h
        cases hpages
      | ok page =>
        simp only [hpg] at h
        cases hrec : bug_tasks_loop client parsePage fuel page
            (copy_bug_tasks_page page []) with
        | none => rw [hrec] at h; cases h
        | some o2 =>
          rw [hrec] at h
          obtain rfl := Option.some.inj h
          have hp : page = p ∧ o2.pages = ps := by
            have := hpages
            simp only at this
            exact ⟨(List.cons.inj this).1, (List.cons.inj this).2⟩
          obtain ⟨rfl, hps⟩ := hp
          rw [bug_tasks_loop_terminal client parsePage fuel page
            (copy_bug_tasks_page page []) hnone] at hrec
          obtain rfl := Option.some.inj hrec
          exact ⟨rfl, hps.symm⟩

/-- Witness for C6 amended: the one-page demo run fetches exactly the project
URL and the single search page. -/
theorem get_project_bug_tasks_single_page_calls_witness :
    ([project_url "nova", search_tasks_url "nova" none] : List String).length = 2 ∧
      ([] : List LaunchpadBugTasksResponse) = [] :=
  get_project_bug_tasks_single_page_calls demo_client_one demo_parse_value
    demo_parse_page_one 3 "nova" none
    ⟨.ok [sample_entry 7], [project_url "nova", search_tasks_url "nova" none],
      [demo_single_page]⟩
    demo_single_page [] (by rfl) rfl rfl

/-- C7: a timestamp field whose wire value is an absent key, a JSON null, or
an empty string decodes successfully to `None`; none of the three shapes is
an error. -/
theorem optional_datetime_lenient (parse : String → Option DateTime)
    (fields : List (String × Json)) (key : String) :
    (lookup_field fields key = none →
      decode_optional_datetime_field parse fields key = .ok none) ∧
    (lookup_field fields key = some .null →
      decode_optional_datetime_field parse fields key = .ok none) ∧
    (lookup_field fields key = some (.str "") →
      decode_optional_datetime_field parse fields key = .ok none) := by
  refine ⟨?_, ?_, ?_⟩ <;> intro h <;>
    simp [decode_optional_datetime_field, h, deserialize_optional_datetime]

/-- Witness for C7: a `date_created` key that is absent, null, or the empty
string each decodes to `None`. -/
theorem optional_datetime_lenient_witness :
    decode_optional_datetime_field (fun _ => none) [] "date_created" = .ok none ∧
    decode_optional_datetime_field (fun _ => none) [("date_created", Json.null)]
      "date_created" = .ok none ∧
    decode_optional_datetime_field (fun _ => none) [("date_created", Json.str "")]
      "date_created" = .ok none :=
  ⟨(optional_datetime_lenient (fun _ => none) [] "date_created").1 rfl,
   (optional_datetime_lenient (fun _ => none) [("date_created", Json.null)]
     "date_created").2.1 rfl,
   (optional_datetime_lenient (fun _ => none) [("date_created", Json.str "")]
     "date_created").2.2 rfl⟩

/-- C8: a monitor poll at tick `now` — driven by the no-op waker, hence never
suspending — yields `None` strictly before the task completes and the task's
outcome from the completion tick on, so the first `Some` is observed exactly
once, at completion, by a loop that polls every tick and stops at the first
`Some`; `check_monitor` reports exactly that observation. -/
theorem is_finished_poll_semantics (h : JoinHandleModel) (now : Nat) :
    (is_finished h now = none ↔ now < h.finish_at) ∧
    (is_finished h now = some h.outcome ↔ h.finish_at ≤ now) ∧
    (check_monitor h now = true ↔ h.finish_at ≤ now) := by
  unfold check_monitor is_finished join_handle_poll
  by_cases hle : h.finish_at ≤ now
  · simp [hle]
  · simp [hle]
    omega

/-- The rows of `App::update_bugs` build without panicking exactly when every
entry carries a creation date. -/
theorem build_rows_isSome (re : String → Option (String × String))
    (dateNaive : DateTime → String) :
    ∀ bugs : List BugTaskEntry,
      (build_rows re dateNaive bugs).isSome = true ↔
        ∀ e ∈ bugs, e.date_created.isSome = true := by
  intro bugs
  induction bugs with
  | nil => simp [build_rows]
  | cons b rest ih =>
    cases hd : b.date_created with
    | none => simp [build_rows, hd]
    | some d =>
      cases hr : build_rows re dateNaive rest with
      | none =>
        rw [hr] at ih
        simp [build_rows, hd, hr, ← ih]
      | some rows =>
        rw [hr] at ih
        simp [build_rows, hd, hr, ← ih]

/-- C9: `App::update_bugs` completes without panicking exactly when every
received entry has `date_created = Some(_)`; any entry whose `date_created`
is `None` makes the row-building `unwrap` panic. -/
theorem update_bugs_panics_iff_missing_date (re : String → Option (String × String))
    (dateNaive : DateTime → String) (app : App) (bugs : List BugTaskEntry) :
    (App.update_bugs re dateNaive app bugs).isSome = true ↔
      ∀ e ∈ bugs, e.date_created.isSome = true := by
  rw [← build_rows_isSome re dateNaive bugs]
  unfold App.update_bugs
  cases hb : build_rows re dateNaive bugs <;> simp [hb]

/-- Counterexample to C10 as stated: on an empty table with row 1 selected,
`bug_table_previous_item` does not underflow — it merely decrements the
selection to 0 — so the navigation methods do not all panic "whenever an
item is selected". -/
theorem bug_table_previous_item_empty_sel_one_no_panic :
    App.bug_table_previous_item empty_app_sel_one =
      some (empty_app_sel_one.select_row 0) := rfl

/-- C10 amended: on an empty table, `bug_table_go_to_end` always evaluates
`len() - 1` on 0 and underflows (a debug-build panic); `bug_table_next_item`
underflows whenever an item is selected; `bug_table_previous_item` underflows
exactly when the selected index is 0 (a nonzero selection merely decrements,
no selection selects row 0). -/
theorem bug_table_navigation_empty_table (app : App)
    (hempty : app.bug_table_items = []) :
    app.bug_table_go_to_end = none ∧
    (∀ i, app.bug_table_selected = some i → app.bug_table_next_item = none) ∧
    (app.bug_table_previous_item = none ↔ app.bug_table_selected = some 0) := by
  have hlen : app.bug_table_items.length = 0 := by rw [hempty]; rfl
  refine ⟨?_, ?_, ?_⟩
  · unfold App.bug_table_go_to_end
    simp [hlen, usize_sub]
  · intro i hi
    unfold App.bug_table_next_item
    simp [hi, hlen, usize_sub]
  · unfold App.bug_table_previous_item
    cases hs : app.bug_table_selected with
    | none => simp
    | some i =>
      cases i with
      | zero => simp [hlen, usize_sub]
      | succ k => simp [hlen, usize_sub]

/-- Witness for C10 amended: on the empty table with row 0 selected, all
three navigation methods underflow and panic. -/
theorem bug_table_navigation_empty_table_witness :
    App.bug_table_go_to_end empty_app_sel_zero = none ∧
    App.bug_table_next_item empty_app_sel_zero = none ∧
    App.bug_table_previous_item empty_app_sel_zero = none :=
  ⟨(bug_table_navigation_empty_table empty_app_sel_zero rfl).1,
   (bug_table_navigation_empty_table empty_app_sel_zero rfl).2.1 0 rfl,
   (bug_table_navigation_empty_table empty_app_sel_zero rfl).2.2.mpr rfl⟩

end Ratatai
